import Mathlib

/-!
Verification development for the OrganizadorDePensiones backend
(controllers/cleaning.js): a shallow embedding in Lean 4 of the task
rotation, scoring, swap negotiation and verification logic, together
with theorems settling the specified properties.

Dates are modelled at day granularity as integer day numbers (days since
1970-01-01), with civil-calendar conversions mirroring JavaScript Date
semantics: setDate adds days exactly, and setMonth increments the month
keeping the day-of-month, letting an overflowing day roll into the next
month.
-/

namespace Cleaning

/-- Number of days from 1970-01-01 to the civil date y-m-d (month 1..12).
Standard civil-from-days arithmetic; Lean division on Int is Euclidean,
which coincides with floor division for the positive divisors used here. -/
def daysFromCivil (y m d : Int) : Int :=
  let y2 := if m ≤ 2 then y - 1 else y
  let era := y2 / 400
  let yoe := y2 - era * 400
  let mp := (m + 9) % 12
  let doy := (153 * mp + 2) / 5 + d - 1
  let doe := yoe * 365 + yoe / 4 - yoe / 100 + doy
  era * 146097 + doe - 719468

/-- Civil date (year, month, day) of an integer day number. -/
def civilFromDays (z0 : Int) : Int × Int × Int :=
  let z := z0 + 719468
  let era := z / 146097
  let doe := z - era * 146097
  let yoe := (doe - doe / 1460 + doe / 36524 - doe / 146096) / 365
  let y := yoe + era * 400
  let doy := doe - (365 * yoe + yoe / 4 - yoe / 100)
  let mp := (5 * doy + 2) / 153
  let d := doy - (153 * mp + 2) / 5 + 1
  let m := mp + (if mp < 10 then 3 else -9)
  (y + (if m ≤ 2 then 1 else 0), m, d)

/-- JavaScript date.setMonth(date.getMonth() + 1): increment the month
(carrying into the year), keep the day-of-month, and let a day past the
end of the target month roll over into the following month. -/
def addOneMonthJS (z : Int) : Int :=
  let c := civilFromDays z
  let y := c.1
  let m := c.2.1
  let d := c.2.2
  let y2 := if m + 1 > 12 then y + 1 else y
  let m2 := if m + 1 > 12 then 1 else m + 1
  daysFromCivil y2 m2 1 + (d - 1)

/-- Association-list lookup by string key, modelling JavaScript object
property access on the maps of the controller. -/
def lookupA {β : Type} (k : String) : List (String × β) → Option β
  | [] => none
  | (k2, v) :: rest => if k2 = k then some v else lookupA k rest

/-- Frequency configuration per area, from the source: taskFrequencies. -/
def taskFrequencies : List (String × String) :=
  [("Cortar el pasto", "monthly"), ("Terraza y Escaleras", "biweekly")]

/-- calculateEndDate from the source: monthly adds one calendar month,
biweekly adds 14 days, weekly and any other value adds 7 days. -/
def calculateEndDate (startDate : Int) (frequency : String) : Int :=
  if frequency = "monthly" then addOneMonthJS startDate
  else if frequency = "biweekly" then startDate + 14
  else startDate + 7

/-- Frequency used for an area in rotateAssignments:
taskFrequencies[area] with weekly as the fallback. -/
def frequencyForArea (area : String) : String :=
  (lookupA area taskFrequencies).getD "weekly"

/-! ## Data model -/

inductive VerificationStatus
  | pending
  | in_progress
  | approved
  | rejected
  deriving DecidableEq, Repr

inductive SwapStatus
  | pending
  | accepted
  | rejected
  deriving DecidableEq, Repr

structure VerificationVote where
  verifier : String
  approved : Bool
  comment : String
  verifiedAt : Int
  deriving DecidableEq, Repr

structure SwapRequest where
  id : Nat
  requestedBy : String
  targetTask : Nat
  status : SwapStatus
  createdAt : Int
  deriving DecidableEq, Repr

/-- One cleaning task record. Ids are natural numbers standing for the
database object ids. -/
structure CleaningTask where
  id : Nat
  area : String
  frequency : String
  responsibles : List String
  temporaryResponsible : Option String
  startDate : Int
  endDate : Int
  verifiers : List String
  completed : Bool
  completedAt : Option Int
  verificationStatus : VerificationStatus
  verifications : List VerificationVote
  swapRequests : List SwapRequest
  deriving DecidableEq, Repr

/-- HTTP-level error responses of the controller, by status code. -/
inductive ApiError
  | notFound (msg : String)
  | forbidden (msg : String)
  | badRequest (msg : String)
  | serverError (msg : String)
  deriving DecidableEq, Repr

end Cleaning

namespace Cleaning

/-! ## Metrics (calculateUserMetrics) -/

/-- Per-user metrics as built by calculateUserMetrics and then extended by
rotateAssignments with the current-cycle workload accumulator. Area maps
are association lists from area name to value. -/
structure UserMetrics where
  totalHistoricalTasks : Nat
  completedTasks : Nat
  incompleteOrRejectedTasks : Nat
  completionRate : ℚ
  lastAssignedAreas : List (String × Int)
  areaAssignmentCounts : List (String × Nat)
  currentWorkload : ℚ
  tasksAssigned : Nat
  deriving DecidableEq, Repr

/-- Initial metrics entry for an available user: zero counters, default
completion rate 1, empty area maps. -/
def initUserMetrics : UserMetrics :=
  { totalHistoricalTasks := 0
    completedTasks := 0
    incompleteOrRejectedTasks := 0
    completionRate := 1
    lastAssignedAreas := []
    areaAssignmentCounts := []
    currentWorkload := 0
    tasksAssigned := 0 }

/-- Metrics map keyed by user id. -/
abbrev MetricsMap := List (String × UserMetrics)

/-- Apply f to the entry with the given key, if present; keys absent from
the map are left untouched (the source skips users that are not in the
metrics map). -/
def updateEntry (k : String) (f : UserMetrics → UserMetrics) :
    MetricsMap → MetricsMap
  | [] => []
  | (k2, v) :: rest =>
      if k2 = k then (k2, f v) :: rest else (k2, v) :: updateEntry k f rest

/-- Set the value for a key in an association list, overwriting the first
occurrence or appending when absent. -/
def setAssoc {β : Type} (k : String) (v : β) :
    List (String × β) → List (String × β)
  | [] => [(k, v)]
  | (k2, v2) :: rest =>
      if k2 = k then (k2, v) :: rest else (k2, v2) :: setAssoc k v rest

/-- Credit one historical task to one of its responsibles: bump the total,
credit completed or incomplete-or-rejected per the wasCompleted and
wasRejected flags, keep the latest end date per area, and bump this area
assignment count. -/
def creditResponsible (task : CleaningTask) (wasCompleted wasRejected : Bool)
    (m : UserMetrics) : UserMetrics :=
  let m := { m with totalHistoricalTasks := m.totalHistoricalTasks + 1 }
  let m :=
    if wasCompleted then
      { m with completedTasks := m.completedTasks + 1 }
    else if wasRejected || task.completed = false then
      { m with incompleteOrRejectedTasks := m.incompleteOrRejectedTasks + 1 }
    else m
  let m :=
    match lookupA task.area m.lastAssignedAreas with
    | none => { m with lastAssignedAreas := setAssoc task.area task.endDate m.lastAssignedAreas }
    | some prev =>
        if prev < task.endDate then
          { m with lastAssignedAreas := setAssoc task.area task.endDate m.lastAssignedAreas }
        else m
  { m with areaAssignmentCounts :=
      (setAssoc task.area ((lookupA task.area m.areaAssignmentCounts).getD 0 + 1)
        m.areaAssignmentCounts) }

/-- Credit one historical task to its temporary responsible: only the
completion counters are touched, never the area recency or count maps. -/
def creditTemporary (task : CleaningTask) (wasCompleted wasRejected : Bool)
    (m : UserMetrics) : UserMetrics :=
  let m := { m with totalHistoricalTasks := m.totalHistoricalTasks + 1 }
  if wasCompleted then
    { m with completedTasks := m.completedTasks + 1 }
  else if wasRejected || task.completed = false then
    { m with incompleteOrRejectedTasks := m.incompleteOrRejectedTasks + 1 }
  else m

/-- Fold one historical task into the metrics map: credit every
responsible and, when present, the temporary responsible. -/
def applyHistoryTask (mm : MetricsMap) (task : CleaningTask) : MetricsMap :=
  let wasCompleted := task.completed && task.verificationStatus = .approved
  let wasRejected := task.completed && task.verificationStatus = .rejected
  let mm := task.responsibles.foldl
    (fun mm uid => updateEntry uid (creditResponsible task wasCompleted wasRejected) mm) mm
  match task.temporaryResponsible with
  | some uid => updateEntry uid (creditTemporary task wasCompleted wasRejected) mm
  | none => mm

/-- Completion rate pass for one entry: completed over evaluable history
when the latter is nonzero, else the default 1 stands. -/
def applyCompletionRate (m : UserMetrics) : UserMetrics :=
  let totalEvaluable := m.completedTasks + m.incompleteOrRejectedTasks
  if 0 < totalEvaluable then
    { m with completionRate := (m.completedTasks : ℚ) / (totalEvaluable : ℚ) }
  else m

/-- Final pass of calculateUserMetrics over the whole map. -/
def finishRates (mm : MetricsMap) : MetricsMap :=
  mm.map (fun p => (p.1, applyCompletionRate p.2))

/-- calculateUserMetrics from the source: initialise an entry for every
available user, fold the task history, then compute completion rates. -/
def calculateUserMetrics (taskHistory : List CleaningTask)
    (availableUsers : List String) : MetricsMap :=
  finishRates
    (taskHistory.foldl applyHistoryTask
      (availableUsers.map (fun uid => (uid, initUserMetrics))))

/-! ## Scoring and selection (selectResponsiblesForArea, selectVerifiers) -/

structure AreaConfig where
  area : String
  peopleNeeded : Nat
  difficulty : Nat
  deriving DecidableEq, Repr

structure ScoredUser where
  userId : String
  score : ℚ
  deriving DecidableEq, Repr

/-- Largest totalHistoricalTasks across the metrics map (0 when empty). -/
def maxHistoricalTasks (mm : MetricsMap) : Nat :=
  mm.foldl (fun acc p => max acc p.2.totalHistoricalTasks) 0

/-- The suitability score for one user and one area as computed in
selectResponsiblesForArea. denomHist is the max historical task count
across available users, with 1 substituted when that max is 0, mirroring
the source fallback. -/
def computeScore (area : String) (targetWorkload : ℚ) (now : Int)
    (denomHist : ℚ) (m : UserMetrics) : ℚ :=
  let daysSinceLastAssignment : ℚ :=
    match lookupA area m.lastAssignedAreas with
    | some d => ((now - d : Int) : ℚ)
    | none => 365
  let areaAssignmentCount : ℚ := ((lookupA area m.areaAssignmentCounts).getD 0 : ℚ)
  let workloadDifference := targetWorkload - m.currentWorkload
  let completionRateBonus := m.completionRate * 3
  let totalTasksRatio := (m.totalHistoricalTasks : ℚ) / denomHist
  daysSinceLastAssignment * (2 / 10) + (10 - areaAssignmentCount) * (2 / 10)
    + workloadDifference * (3 / 10) + completionRateBonus * (2 / 10)
    + (1 - totalTasksRatio) * (1 / 10)

/-- The selection loop of selectResponsiblesForArea: shift up to
peopleNeeded entries from the front of the sorted candidate list. -/
def pickTop : Nat → List ScoredUser → List String
  | 0, _ => []
  | _ + 1, [] => []
  | n + 1, s :: rest => s.userId :: pickTop n rest

/-- Descending stable comparison on score, as the sort comparator of the
source (b.score - a.score under a stable sort). -/
def scoreGe (a b : ScoredUser) : Bool := b.score ≤ a.score

/-- The scored candidate list built inside selectResponsiblesForArea:
every available user paired with the computed score for this area. Every
available user has a metrics entry by construction; the lookup default is
unreachable in a planning run. -/
def scoreUsers (areaInfo : AreaConfig) (availableUsers : List String)
    (userMetrics : MetricsMap) (targetWorkload : ℚ) (now : Int) :
    List ScoredUser :=
  let mx := maxHistoricalTasks userMetrics
  let denomHist : ℚ := if mx = 0 then 1 else (mx : ℚ)
  availableUsers.map (fun uid =>
    ScoredUser.mk uid
      (computeScore areaInfo.area targetWorkload now denomHist
        ((lookupA uid userMetrics).getD initUserMetrics)))

/-- selectResponsiblesForArea from the source: score every available
user for the area, sort by score descending (stable), and take the top
peopleNeeded user ids. -/
def selectResponsiblesForArea (areaInfo : AreaConfig)
    (availableUsers : List String) (userMetrics : MetricsMap)
    (targetWorkload : ℚ) (now : Int) : List String :=
  pickTop areaInfo.peopleNeeded
    ((scoreUsers areaInfo availableUsers userMetrics targetWorkload now).mergeSort scoreGe)

/-- Completion rate read for the verifier sort, with 0 for users missing
from the metrics map, as in the source optional chain with zero default. -/
def rateOf (userMetrics : MetricsMap) (uid : String) : ℚ :=
  ((lookupA uid userMetrics).map (fun m => m.completionRate)).getD 0

/-- selectVerifiers from the source: prefer available users that are not
responsibles; when fewer than 3 remain, rank all available users instead;
either way sort by completion rate descending and take up to 3. -/
def selectVerifiers (responsibles : List String)
    (availableUsers : List String) (userMetrics : MetricsMap) : List String :=
  let potentialVerifiers := availableUsers.filter (fun uid => ¬ responsibles.contains uid)
  if potentialVerifiers.length < 3 then
    let allUserIds := availableUsers.mergeSort
      (fun a b => rateOf userMetrics b ≤ rateOf userMetrics a)
    allUserIds.take (min 3 allUserIds.length)
  else
    (potentialVerifiers.mergeSort
      (fun a b => rateOf userMetrics b ≤ rateOf userMetrics a)).take 3

end Cleaning

namespace Cleaning

/-! ## Assignment planner (rotateAssignments) -/

/-- The static area configuration of rotateAssignments. -/
def areaConfig : List AreaConfig :=
  [ { area := "Baño 1", peopleNeeded := 1, difficulty := 2 }
  , { area := "Baño 2", peopleNeeded := 1, difficulty := 2 }
  , { area := "Baño 3", peopleNeeded := 1, difficulty := 2 }
  , { area := "Terraza y Escaleras", peopleNeeded := 2, difficulty := 3 }
  , { area := "Orden de Cocina", peopleNeeded := 1, difficulty := 1 }
  , { area := "Cocina y Living", peopleNeeded := 2, difficulty := 4 }
  , { area := "Basura", peopleNeeded := 1, difficulty := 1 }
  , { area := "Cortar el pasto", peopleNeeded := 2, difficulty := 3 } ]

/-- Fresh task created by the planner for one area. Fields not set at
creation take their schema defaults: not completed, verification pending,
no votes, no swap requests, no temporary responsible. -/
def newPlannedTask (id : Nat) (areaInfo : AreaConfig) (frequency : String)
    (responsibles : List String) (now endDate : Int)
    (verifiers : List String) : CleaningTask :=
  { id := id
    area := areaInfo.area
    frequency := frequency
    responsibles := responsibles
    temporaryResponsible := none
    startDate := now
    endDate := endDate
    verifiers := verifiers
    completed := false
    completedAt := none
    verificationStatus := .pending
    verifications := []
    swapRequests := [] }

/-- Workload bookkeeping applied to each selected responsible inside the
planner loop: add the area difficulty to the live workload accumulator,
bump the assigned-task counter, and stamp the recency map with now. -/
def recordAssignment (areaInfo : AreaConfig) (now : Int)
    (m : UserMetrics) : UserMetrics :=
  { m with
    currentWorkload := m.currentWorkload + (areaInfo.difficulty : ℚ)
    tasksAssigned := m.tasksAssigned + 1
    lastAssignedAreas := setAssoc areaInfo.area now m.lastAssignedAreas }

/-- One iteration of the planner loop over the prioritised areas: select
responsibles with the live metrics, update the selected users metrics,
select verifiers, and append the new task. -/
def assignAreaStep (availableUsers : List String) (targetWorkload : ℚ)
    (now : Int) (acc : List CleaningTask × MetricsMap)
    (areaInfo : AreaConfig) : List CleaningTask × MetricsMap :=
  let frequency := frequencyForArea areaInfo.area
  let endDate := calculateEndDate now frequency
  let responsibles :=
    selectResponsiblesForArea areaInfo availableUsers acc.2 targetWorkload now
  let mm := responsibles.foldl
    (fun mm uid => updateEntry uid (recordAssignment areaInfo now) mm) acc.2
  let verifiers := selectVerifiers responsibles availableUsers mm
  (acc.1 ++
    [newPlannedTask acc.1.length areaInfo frequency responsibles now endDate verifiers],
   mm)

/-- Descending stable comparison on difficulty, the sort comparator of the
planner (b.difficulty - a.difficulty under a stable sort). -/
def difficultyGe (a b : AreaConfig) : Bool := b.difficulty ≤ a.difficulty

/-- Descending comparison on end date used to order the task history. -/
def endDateGe (a b : CleaningTask) : Bool := b.endDate ≤ a.endDate

/-- The successful planning pipeline of rotateAssignments: build metrics
from the prior tasks ordered most recent first, compute the target
workload per user, reset the live workload accumulators, order the areas
by difficulty descending (stable), and fold the per-area assignment step
over them. -/
def planTasks (oldTasks : List CleaningTask) (availableUsers : List String)
    (now : Int) : List CleaningTask :=
  let taskHistory := oldTasks.mergeSort endDateGe
  let userMetrics := calculateUserMetrics taskHistory availableUsers
  let totalDifficulty : Nat :=
    areaConfig.foldl (fun s a => s + a.difficulty * a.peopleNeeded) 0
  let targetWorkloadPerUser : ℚ :=
    (totalDifficulty : ℚ) / (availableUsers.length : ℚ)
  let userMetrics2 := availableUsers.foldl
    (fun mm uid => updateEntry uid (fun m => { m with currentWorkload := 0 }) mm)
    userMetrics
  let prioritizedAreas := areaConfig.mergeSort difficultyGe
  (prioritizedAreas.foldl
    (assignAreaStep availableUsers targetWorkloadPerUser now)
    ([], userMetrics2)).1

/-- rotateAssignments from the source, as a transformer of the persisted
task collection. With fewer than 2 available users it returns the
precondition error and the collection untouched; otherwise it deletes
all prior tasks and inserts the freshly planned set, returned together
with no error. -/
def rotateAssignments (oldTasks : List CleaningTask)
    (availableUsers : List String) (now : Int) :
    List CleaningTask × Option ApiError :=
  if availableUsers.length < 2 then
    (oldTasks,
     some (.badRequest "Se necesitan al menos 2 usuarios disponibles para asignar todas las tareas correctamente"))
  else
    (planTasks oldTasks availableUsers now, none)

/-! ## Task mutation operations -/

/-- Replace the task with the given id in the collection by f applied to
it (ids are assumed unique, as database object ids are). -/
def updateTask (tasks : List CleaningTask) (taskId : Nat)
    (f : CleaningTask → CleaningTask) : List CleaningTask :=
  tasks.map (fun t => if t.id = taskId then f t else t)

/-- Permission predicate used throughout the controller: the acting user
is listed among the responsibles or is the temporary responsible. -/
def isResponsibleFor (task : CleaningTask) (userId : String) : Bool :=
  task.responsibles.contains userId || task.temporaryResponsible = some userId

/-- markAsCompleted from the source: after existence and permission
checks, marking completed sets the completion flag and timestamp and
resets the verification status to pending, leaving the recorded votes in
place; marking not completed additionally clears the votes and the
timestamp. -/
def markAsCompleted (tasks : List CleaningTask) (taskId : Nat)
    (completed : Bool) (userId : String) (isAdmin : Bool) (now : Int) :
    Except ApiError (List CleaningTask) :=
  match tasks.find? (fun t => t.id = taskId) with
  | none => .error (.notFound "Tarea no encontrada")
  | some task =>
    if ¬ isResponsibleFor task userId ∧ ¬ isAdmin then
      .error (.forbidden "No tienes permiso para actualizar esta tarea")
    else if completed then
      .ok (updateTask tasks taskId (fun t =>
        { t with completed := true, completedAt := some now,
                 verificationStatus := .pending }))
    else
      .ok (updateTask tasks taskId (fun t =>
        { t with completed := false, completedAt := none,
                 verificationStatus := .pending, verifications := [] }))

/-- Status recomputation of verifyTask after a vote: with all votes in,
approved exactly when approvals strictly outnumber rejections, else
rejected; with votes still missing, approved or rejected follows the
current leader and an exact tie is in progress. -/
def recomputeStatus (totalVerifiers totalVerifications approvedCount rejectedCount : Nat) :
    VerificationStatus :=
  if totalVerifications = totalVerifiers then
    if rejectedCount < approvedCount then VerificationStatus.approved
    else VerificationStatus.rejected
  else
    if rejectedCount < approvedCount then VerificationStatus.approved
    else if approvedCount < rejectedCount then VerificationStatus.rejected
    else VerificationStatus.in_progress

/-- verifyTask from the source: guards (task completed, caller is a
verifier, no duplicate vote), then append the vote and recompute the
verification status from the tally against the roster size. -/
def verifyTask (task : CleaningTask) (verifierId : String)
    (approved : Bool) (comment : String) (now : Int) :
    Except ApiError CleaningTask :=
  if ¬ task.completed then
    .error (.badRequest "La tarea aún no está marcada como completada")
  else if ¬ task.verifiers.contains verifierId then
    .error (.forbidden "No eres verificador de esta tarea")
  else if task.verifications.any (fun v => v.verifier = verifierId) then
    .error (.badRequest "Ya has verificado esta tarea")
  else
    let verifications := task.verifications ++
      [{ verifier := verifierId, approved := approved, comment := comment,
         verifiedAt := now }]
    let status := recomputeStatus task.verifiers.length verifications.length
      (verifications.filter (fun v => v.approved)).length
      (verifications.filter (fun v => !v.approved)).length
    .ok { task with verifications := verifications, verificationStatus := status }

/-! ## Swap operations -/

/-- swapTasks from the source, the direct two-task swap endpoint: both
tasks must exist, the caller must be responsible for at least one, and
neither may be completed; then the responsible sets are exchanged and the
temporary responsibles cleared. -/
def swapTasks (tasks : List CleaningTask) (task1Id task2Id : Nat)
    (userId : String) : Except ApiError (List CleaningTask) :=
  match tasks.find? (fun t => t.id = task1Id),
        tasks.find? (fun t => t.id = task2Id) with
  | some task1, some task2 =>
    if ¬ isResponsibleFor task1 userId ∧ ¬ isResponsibleFor task2 userId then
      .error (.forbidden "No tienes permiso para intercambiar estas tareas")
    else if task1.completed || task2.completed then
      .error (.badRequest "No se pueden intercambiar tareas que ya están completadas")
    else
      .ok (tasks.map (fun t =>
        if t.id = task1Id then
          { t with responsibles := task2.responsibles, temporaryResponsible := none }
        else if t.id = task2Id then
          { t with responsibles := task1.responsibles, temporaryResponsible := none }
        else t))
  | _, _ => .error (.notFound "Una o ambas tareas no encontradas")

/-- respondToSwapRequest from the source. On accept the source invokes
the Express route handler swapTasks(req, res) as if it were an internal
helper, passing the task object id and the target task object id in the
request position: the handler destructures req.body, which is undefined
on an object id, so a TypeError is thrown; the recovery path then calls
res.status on the second object id and throws again, and the exception
reaches the outer handler, which answers 500 before the responsibles are
exchanged and before the request status is set. The thrown accept path is
modelled by the serverError result, leaving the collection untouched. -/
def respondToSwapRequest (tasks : List CleaningTask) (taskId : Nat)
    (swapRequestId : Nat) (accept : Bool) (userId : String) :
    Except ApiError (List CleaningTask) :=
  match tasks.find? (fun t => t.id = taskId) with
  | none => .error (.notFound "Tarea no encontrada")
  | some task =>
    match task.swapRequests.find? (fun r => r.id = swapRequestId) with
    | none => .error (.notFound "Solicitud de intercambio no encontrada")
    | some _ =>
      if ¬ isResponsibleFor task userId then
        .error (.forbidden "No tienes permiso para responder a esta solicitud")
      else if accept then
        .error (.serverError "res.status is not a function")
      else
        .ok (updateTask tasks taskId (fun t =>
          { t with swapRequests := t.swapRequests.map (fun r =>
              if r.id = swapRequestId then { r with status := .rejected } else r) }))

/-- Number of task documents that embed at least one pending swap request
by the given user: the countDocuments query of createSwapRequest. -/
def countTasksWithPendingBy (tasks : List CleaningTask) (userId : String) : Nat :=
  (tasks.filter (fun t => t.swapRequests.any
    (fun r => r.requestedBy = userId && r.status = .pending))).length

/-- createSwapRequest from the source: both tasks must exist, the caller
must be responsible for the offered task, no identical pending request
may exist, and the caller may not already have pending requests embedded
in 3 or more task documents; then a pending request is appended to the
requested task. The database generates the subdocument id; it is passed
here as freshId. -/
def createSwapRequest (tasks : List CleaningTask)
    (requestedTaskId offeredTaskId : Nat) (userId : String)
    (freshId : Nat) (now : Int) : Except ApiError (List CleaningTask) :=
  match tasks.find? (fun t => t.id = requestedTaskId),
        tasks.find? (fun t => t.id = offeredTaskId) with
  | some requestedTask, some offeredTask =>
    if ¬ isResponsibleFor offeredTask userId then
      .error (.forbidden "No tienes permiso para ofrecer esta tarea")
    else if requestedTask.swapRequests.any (fun r =>
        r.status = .pending && r.targetTask = offeredTaskId
          && r.requestedBy = userId) then
      .error (.badRequest "Ya existe una solicitud de intercambio pendiente para estas tareas")
    else if 3 ≤ countTasksWithPendingBy tasks userId then
      .error (.badRequest "Ya tienes demasiadas solicitudes de intercambio pendientes")
    else
      .ok (updateTask tasks requestedTaskId (fun t =>
        { t with swapRequests := t.swapRequests ++
            [{ id := freshId, requestedBy := userId, targetTask := offeredTaskId,
               status := .pending, createdAt := now }] }))
  | _, _ => .error (.notFound "Una o ambas tareas no encontradas")

/-- acceptSwapRequest from the source: locate the task embedding the
request, require it pending and the caller responsible for that task,
locate the offered task, exchange the two responsible sets, clear both
temporary responsibles, and mark the request accepted. There is no
completed-task guard on this path. -/
def acceptSwapRequest (tasks : List CleaningTask) (requestId : Nat)
    (userId : String) : Except ApiError (List CleaningTask) :=
  match tasks.find? (fun t => t.swapRequests.any (fun r => r.id = requestId)) with
  | none => .error (.notFound "Solicitud de intercambio no encontrada")
  | some task =>
    match task.swapRequests.find? (fun r => r.id = requestId) with
    | none => .error (.badRequest "Solicitud de intercambio no válida")
    | some swapRequest =>
      if swapRequest.status ≠ .pending then
        .error (.badRequest "Solicitud de intercambio no válida")
      else if ¬ isResponsibleFor task userId then
        .error (.forbidden "No tienes permiso para aceptar esta solicitud")
      else
        match tasks.find? (fun t => t.id = swapRequest.targetTask) with
        | none => .error (.notFound "Tarea ofrecida no encontrada")
        | some offeredTask =>
          .ok (tasks.map (fun t =>
            if t.id = task.id then
              { t with responsibles := offeredTask.responsibles,
                       temporaryResponsible := none,
                       swapRequests := t.swapRequests.map (fun r =>
                         if r.id = requestId then { r with status := .accepted } else r) }
            else if t.id = offeredTask.id then
              { t with responsibles := task.responsibles,
                       temporaryResponsible := none }
            else t))

end Cleaning

namespace Cleaning

/-! ## Specification-side definitions

These definitions restate quantities in the words of the specification,
to be compared with the embedded source functions. -/

/-- Verification status as the specification phrases it, from the roster
size and the two tallies: with every verifier having voted, approved
exactly when approvals strictly outnumber rejections and rejected
otherwise, ties included; with voting incomplete, approved while
approvals lead, rejected while rejections lead, in progress on a tie. -/
def specVoteStatus (rosterSize approvals rejections : Nat) :
    VerificationStatus :=
  if approvals + rejections = rosterSize then
    if rejections < approvals then .approved else .rejected
  else
    if rejections < approvals then .approved
    else if approvals < rejections then .rejected
    else .in_progress

/-- Suitability score exactly as the specification phrases it:
0.2 times days since the last assignment of this area (365 when never
assigned), plus 0.2 times (10 minus the area assignment count), plus
0.3 times (target workload minus current workload), plus 0.2 times
(completion rate times 3), plus 0.1 times (1 minus total historical
tasks over the maximum historical task count across available people). -/
def specScore (area : String) (targetWorkload : ℚ) (now : Int)
    (userMetrics : MetricsMap) (m : UserMetrics) : ℚ :=
  (2 / 10) * (match lookupA area m.lastAssignedAreas with
    | some d => ((now - d : Int) : ℚ)
    | none => 365)
  + (2 / 10) * (10 - ((lookupA area m.areaAssignmentCounts).getD 0 : ℚ))
  + (3 / 10) * (targetWorkload - m.currentWorkload)
  + (2 / 10) * (m.completionRate * 3)
  + (1 / 10) * (1 - (m.totalHistoricalTasks : ℚ) / (maxHistoricalTasks userMetrics : ℚ))

/-- Total number of pending swap requests by a user across the whole
collection, counting individual embedded requests: the quantity the
specification ceiling speaks of. -/
def totalPendingRequestsBy (tasks : List CleaningTask) (userId : String) : Nat :=
  (tasks.map (fun t => (t.swapRequests.filter
    (fun r => r.requestedBy = userId && r.status = SwapStatus.pending)).length)).sum

/-! ## Helper lemmas -/

/-- Looking up through an updateEntry on a different key is transparent;
on the same key the function is applied. -/
theorem lookupA_updateEntry (k k2 : String) (f : UserMetrics → UserMetrics)
    (mm : MetricsMap) :
    lookupA k (updateEntry k2 f mm) =
      if k2 = k then (lookupA k mm).map f else lookupA k mm := by
  induction mm with
  | nil => by_cases h : k2 = k <;> simp [updateEntry, lookupA, h]
  | cons p rest ih =>
    obtain ⟨a, v⟩ := p
    by_cases h1 : a = k2
    · subst h1
      by_cases h2 : a = k <;> simp [updateEntry, lookupA, h2]
    · by_cases h2 : a = k
      · subst h2
        simp [updateEntry, lookupA, h1, ih, Ne.symm h1]
      · simp [updateEntry, lookupA, h1, h2, ih]

/-- Looking up through a fold of updateEntry applies the function once
per occurrence of the key in the folded list. -/
theorem lookupA_foldl_updateEntry (L : List String)
    (f : UserMetrics → UserMetrics) (mm : MetricsMap) (k : String) :
    lookupA k (L.foldl (fun acc uid => updateEntry uid f acc) mm) =
      (lookupA k mm).map f^[L.count k] := by
  induction L generalizing mm with
  | nil => simp
  | cons a rest ih =>
    rw [List.foldl_cons, ih, lookupA_updateEntry]
    by_cases h : a = k
    · subst h
      simp [List.count_cons, Option.map_map, ← Function.iterate_succ]
    · simp [List.count_cons, h, Ne.symm h]

/-- Lookup in the freshly initialised metrics map. -/
theorem lookupA_init (users : List String) (k : String) :
    lookupA k (users.map (fun uid => (uid, initUserMetrics))) =
      if k ∈ users then some initUserMetrics else none := by
  induction users with
  | nil => simp [lookupA]
  | cons a rest ih =>
    by_cases h : a = k
    · subst h
      simp [lookupA]
    · simp [lookupA, h, ih, Ne.symm h]

/-- Lookup through the completion rate pass. -/
theorem lookupA_finishRates (mm : MetricsMap) (k : String) :
    lookupA k (finishRates mm) = (lookupA k mm).map applyCompletionRate := by
  induction mm with
  | nil => simp [finishRates, lookupA]
  | cons p rest ih =>
    obtain ⟨a, v⟩ := p
    by_cases h : a = k
    · simp [finishRates, lookupA, h]
    · simp [finishRates, lookupA, h]
      simpa [finishRates] using ih

/-- The fold computing the maximum historical task count is at least its
initial accumulator. -/
theorem maxHistoricalTasks_fold_ge (mm : MetricsMap) (acc : Nat) :
    acc ≤ mm.foldl (fun a p => max a p.2.totalHistoricalTasks) acc := by
  induction mm generalizing acc with
  | nil => simp
  | cons p rest ih =>
    exact le_trans (le_max_left _ _) (ih (max acc p.2.totalHistoricalTasks))

/-- Auxiliary bound for the maximum fold, any accumulator. -/
theorem totalHistoricalTasks_le_fold (p : String × UserMetrics) :
    ∀ (mm : MetricsMap) (acc : Nat), p ∈ mm →
      p.2.totalHistoricalTasks ≤
        mm.foldl (fun a q => max a q.2.totalHistoricalTasks) acc := by
  intro mm
  induction mm with
  | nil => intro acc hp; cases hp
  | cons q rest ih =>
    intro acc hp
    rcases List.mem_cons.mp hp with h | h
    · subst h
      exact le_trans (le_max_right _ _) (maxHistoricalTasks_fold_ge rest _)
    · exact ih _ h

/-- Every entry of the metrics map has a historical task count bounded by
the computed maximum. -/
theorem totalHistoricalTasks_le_max (mm : MetricsMap) (p : String × UserMetrics)
    (hp : p ∈ mm) : p.2.totalHistoricalTasks ≤ maxHistoricalTasks mm :=
  totalHistoricalTasks_le_fold p mm 0 hp

/-- A successful lookup returns a value paired with the key in the list. -/
theorem mem_of_lookupA_eq_some {β : Type} {k : String} {v : β}
    {l : List (String × β)} (h : lookupA k l = some v) : (k, v) ∈ l := by
  induction l with
  | nil => simp [lookupA] at h
  | cons p rest ih =>
    obtain ⟨a, w⟩ := p
    by_cases ha : a = k
    · subst ha
      simp [lookupA] at h
      simp [h]
    · simp [lookupA, ha] at h
      simp [ih h]

/-- The selection loop of selectResponsiblesForArea takes the ids of the
first peopleNeeded entries of the candidate list. -/
theorem pickTop_eq_take_map (n : Nat) (l : List ScoredUser) :
    pickTop n l = (l.take n).map (fun su => su.userId) := by
  induction n generalizing l with
  | zero => simp [pickTop]
  | succ n ih =>
    cases l with
    | nil => simp [pickTop]
    | cons s rest => simp [pickTop, ih]

/-- The two filtered tallies partition the vote list. -/
theorem length_filter_bool_partition {α : Type} (l : List α) (p : α → Bool) :
    (l.filter p).length + (l.filter (fun a => !p a)).length = l.length := by
  induction l with
  | nil => rfl
  | cons a t ih =>
    by_cases h : p a <;> simp [List.filter, h, ← ih] <;> omega

end Cleaning

namespace Cleaning

/-! ## Claim C5: end date computation -/

/-- C5: for every start date and every area, the end date is the start
date plus one calendar month for Cortar el pasto (monthly), plus 14 days
for Terraza y Escaleras (biweekly), and plus 7 days for every other area
(weekly default); concretely, from 2024-01-15 the monthly area ends
2024-02-15, the biweekly area 2024-01-29 and any other area 2024-01-22. -/
theorem calculateEndDate_spec :
    (∀ d : Int,
      calculateEndDate d (frequencyForArea "Cortar el pasto") = addOneMonthJS d) ∧
    (∀ d : Int,
      calculateEndDate d (frequencyForArea "Terraza y Escaleras") = d + 14) ∧
    (∀ (d : Int) (a : String), a ≠ "Cortar el pasto" →
      a ≠ "Terraza y Escaleras" →
      calculateEndDate d (frequencyForArea a) = d + 7) ∧
    civilFromDays (calculateEndDate (daysFromCivil 2024 1 15)
      (frequencyForArea "Cortar el pasto")) = (2024, 2, 15) ∧
    civilFromDays (calculateEndDate (daysFromCivil 2024 1 15)
      (frequencyForArea "Terraza y Escaleras")) = (2024, 1, 29) ∧
    civilFromDays (calculateEndDate (daysFromCivil 2024 1 15)
      (frequencyForArea "Baño 1")) = (2024, 1, 22) := by
  refine ⟨?_, ?_, ?_, by decide, by decide, by decide⟩
  · intro d
    simp [calculateEndDate, frequencyForArea, taskFrequencies, lookupA]
  · intro d
    simp [calculateEndDate, frequencyForArea, taskFrequencies, lookupA]
  · intro d a h1 h2
    simp [calculateEndDate, frequencyForArea, taskFrequencies, lookupA,
      Ne.symm h1, Ne.symm h2]

/-- Witness for C5 at a concrete unconfigured area and start date. -/
theorem calculateEndDate_spec_witness :
    ("Basura" : String) ≠ "Cortar el pasto" ∧
    ("Basura" : String) ≠ "Terraza y Escaleras" ∧
    calculateEndDate 19737 (frequencyForArea "Basura") = 19737 + 7 :=
  ⟨by decide, by decide,
    calculateEndDate_spec.2.2.1 19737 "Basura" (by decide) (by decide)⟩

/-! ## Claim C2: verification status recomputation -/

/-- When the two tallies partition the vote count, the recomputed status
of the source equals the status the specification prescribes. -/
theorem recomputeStatus_eq_spec (tot n a r : Nat) (h : a + r = n) :
    recomputeStatus tot n a r = specVoteStatus tot a r := by
  subst h
  rfl

/-- C2: after each successfully cast vote on a task with a non-empty
verifier roster, the stored verification status is exactly the one the
specification prescribes, recomputed from the updated tally against the
full roster size: all voted means approved iff approvals strictly
outnumber rejections and rejected otherwise (ties rejected); otherwise
approved or rejected follows the current leader with in progress on a
tie. -/
theorem verifyTask_status_spec (task : CleaningTask) (verifierId : String)
    (approved : Bool) (comment : String) (now : Int) (t2 : CleaningTask)
    (hroster : task.verifiers ≠ [])
    (h : verifyTask task verifierId approved comment now = .ok t2) :
    t2.verificationStatus =
      specVoteStatus task.verifiers.length
        (t2.verifications.filter (fun v => v.approved)).length
        (t2.verifications.filter (fun v => !v.approved)).length := by
  unfold verifyTask at h
  split at h
  · exact Except.noConfusion h
  · split at h
    · exact Except.noConfusion h
    · split at h
      · exact Except.noConfusion h
      · injection h with h2
        subst h2
        exact recomputeStatus_eq_spec _ _ _ _
          (length_filter_bool_partition _ _)

/-- Witness for C2: a concrete successfully cast vote. -/
theorem verifyTask_status_spec_witness :
    (let task : CleaningTask :=
      { id := 1, area := "Baño 1", frequency := "weekly",
        responsibles := ["r1"], temporaryResponsible := none,
        startDate := 0, endDate := 7, verifiers := ["v1", "v2"],
        completed := true, completedAt := some 0,
        verificationStatus := .pending, verifications := [],
        swapRequests := [] }
     task.verifiers ≠ [] ∧
     ∃ t2, verifyTask task "v1" true "" 0 = .ok t2 ∧
       t2.verificationStatus =
         specVoteStatus task.verifiers.length
           (t2.verifications.filter (fun v => v.approved)).length
           (t2.verifications.filter (fun v => !v.approved)).length) := by
  refine ⟨by decide, ?_⟩
  refine ⟨_, rfl, ?_⟩
  exact verifyTask_status_spec _ "v1" true "" 0 _ (by decide) rfl

/-! ## Claim C6: three-verifier vote sequence -/

/-- Three-verifier completed task awaiting verification, used for the
approve, approve, reject voting scenario. -/
def c6Task : CleaningTask :=
  { id := 1, area := "Baño 1", frequency := "weekly", responsibles := ["r1"],
    temporaryResponsible := none, startDate := 0, endDate := 7,
    verifiers := ["v1", "v2", "v3"], completed := true, completedAt := some 0,
    verificationStatus := .pending, verifications := [], swapRequests := [] }

/-- C6 counterexample: with 3 verifiers, after the first approve vote the
stored status is approved, not in progress as the claim states. -/
theorem first_vote_not_in_progress :
    (verifyTask c6Task "v1" true "" 0).map (fun t => t.verificationStatus)
        = .ok VerificationStatus.approved ∧
    VerificationStatus.approved ≠ VerificationStatus.in_progress := by
  exact ⟨rfl, by decide⟩

/-- C6 amended: with 3 verifiers and votes arriving approve, approve,
reject, the status sequence is approved after the first vote, approved
after the second, and approved (final, two to one) after the third. -/
theorem three_verifier_vote_sequence :
    ∃ t1 t2 t3 : CleaningTask,
      verifyTask c6Task "v1" true "" 0 = .ok t1 ∧
      verifyTask t1 "v2" true "" 1 = .ok t2 ∧
      verifyTask t2 "v3" false "" 2 = .ok t3 ∧
      t1.verificationStatus = .approved ∧
      t2.verificationStatus = .approved ∧
      t3.verificationStatus = .approved := by
  exact ⟨_, _, _, rfl, rfl, rfl, rfl, rfl, rfl⟩

/-! ## Claim C10: marking completed leaves votes in place -/

/-- C10: marking a task completed sets the completion flag and timestamp
and resets the verification status to pending while leaving the recorded
votes untouched, whatever verification state the task carried; marking it
not completed clears the votes; all other tasks are unchanged. -/
theorem markAsCompleted_frame (tasks : List CleaningTask) (taskId : Nat)
    (uid : String) (isAdmin : Bool) (now : Int)
    (tasks2 tasks3 : List CleaningTask)
    (htrue : markAsCompleted tasks taskId true uid isAdmin now = .ok tasks2)
    (hfalse : markAsCompleted tasks taskId false uid isAdmin now = .ok tasks3) :
    (∀ x2 ∈ tasks2, ∃ x ∈ tasks,
      (x.id = taskId →
        x2.completed = true ∧ x2.completedAt = some now ∧
        x2.verificationStatus = .pending ∧
        x2.verifications = x.verifications) ∧
      (x.id ≠ taskId → x2 = x)) ∧
    (∀ x3 ∈ tasks3, ∃ x ∈ tasks,
      (x.id = taskId →
        x3.completed = false ∧ x3.completedAt = none ∧
        x3.verificationStatus = .pending ∧ x3.verifications = []) ∧
      (x.id ≠ taskId → x3 = x)) := by
  unfold markAsCompleted at htrue hfalse
  constructor
  · split at htrue
    · exact Except.noConfusion htrue
    · split at htrue
      · exact Except.noConfusion htrue
      · rw [if_pos rfl] at htrue
        injection htrue with h2
        subst h2
        intro x2 hx2
        obtain ⟨x, hx, hfx⟩ := List.mem_map.mp hx2
        refine ⟨x, hx, ?_, ?_⟩
        · intro hid
          subst hfx
          simp [hid]
        · intro hid
          subst hfx
          simp [hid]
  · split at hfalse
    · exact Except.noConfusion hfalse
    · split at hfalse
      · exact Except.noConfusion hfalse
      · rw [if_neg (by simp)] at hfalse
        injection hfalse with h2
        subst h2
        intro x3 hx3
        obtain ⟨x, hx, hfx⟩ := List.mem_map.mp hx3
        refine ⟨x, hx, ?_, ?_⟩
        · intro hid
          subst hfx
          simp [hid]
        · intro hid
          subst hfx
          simp [hid]

end Cleaning

namespace Cleaning

/-! ## Claim C4: rotation precondition and full replacement -/

/-- The planner fold appends exactly one task per area, and every task it
produces either was in the accumulator or starts at the planning time. -/
theorem assignAreaStep_foldl_shape (users : List String) (target : ℚ)
    (now : Int) :
    ∀ (areas : List AreaConfig) (acc : List CleaningTask × MetricsMap),
      ((areas.foldl (assignAreaStep users target now) acc).1.length
          = acc.1.length + areas.length) ∧
      ∀ t ∈ (areas.foldl (assignAreaStep users target now) acc).1,
        t ∈ acc.1 ∨ t.startDate = now := by
  intro areas
  induction areas with
  | nil =>
    intro acc
    exact ⟨by simp, fun t ht => Or.inl ht⟩
  | cons a rest ih =>
    intro acc
    rw [List.foldl_cons]
    obtain ⟨ihlen, ihmem⟩ := ih (assignAreaStep users target now acc a)
    refine ⟨?_, ?_⟩
    · rw [ihlen]
      simp only [assignAreaStep, List.length_append, List.length_cons,
        List.length_nil, List.length_cons]
      simp
      omega
    · intro t ht
      rcases ihmem t ht with h | h
      · simp only [assignAreaStep, List.mem_append, List.mem_cons,
          List.not_mem_nil, or_false] at h
        rcases h with h | h
        · exact Or.inl h
        · right
          subst h
          rfl
      · exact Or.inr h

/-- C4: with fewer than 2 available users, rotateAssignments returns the
precondition error with the prior task collection untouched, before any
deletion or creation; with 2 or more it succeeds and the collection is
fully replaced by the freshly planned set: 8 new tasks, every one
starting at the planning time. -/
theorem rotateAssignments_precondition (oldTasks : List CleaningTask)
    (users : List String) (now : Int) :
    (users.length < 2 →
      rotateAssignments oldTasks users now =
        (oldTasks, some (ApiError.badRequest
          "Se necesitan al menos 2 usuarios disponibles para asignar todas las tareas correctamente"))) ∧
    (2 ≤ users.length →
      (rotateAssignments oldTasks users now).2 = none ∧
      (rotateAssignments oldTasks users now).1.length = 8 ∧
      ∀ t ∈ (rotateAssignments oldTasks users now).1, t.startDate = now) := by
  constructor
  · intro h
    simp [rotateAssignments, h]
  · intro h
    have hlt : ¬ users.length < 2 := by omega
    unfold rotateAssignments
    rw [if_neg hlt]
    refine ⟨rfl, ?_, ?_⟩
    · show (planTasks oldTasks users now).length = 8
      unfold planTasks
      rw [(assignAreaStep_foldl_shape users _ now _ _).1]
      rw [List.length_mergeSort]
      rfl
    · intro t ht
      have hmem := (assignAreaStep_foldl_shape users
        ((((areaConfig.foldl (fun s a => s + a.difficulty * a.peopleNeeded) 0 : Nat) : ℚ))
          / (users.length : ℚ))
        now (areaConfig.mergeSort difficultyGe)
        ([], users.foldl
          (fun mm uid => updateEntry uid (fun m => { m with currentWorkload := 0 }) mm)
          (calculateUserMetrics (oldTasks.mergeSort endDateGe) users))).2 t
      rcases hmem (by exact ht) with hcontra | hnow
      · cases hcontra
      · exact hnow

end Cleaning

namespace Cleaning

/-- Witness for C4 at concrete rosters of one and of two users. -/
theorem rotateAssignments_precondition_witness :
    ((["solo"] : List String).length < 2 ∧
      rotateAssignments [] ["solo"] 0 =
        ([], some (ApiError.badRequest
          "Se necesitan al menos 2 usuarios disponibles para asignar todas las tareas correctamente"))) ∧
    (2 ≤ (["ana", "beto"] : List String).length ∧
      (rotateAssignments [] ["ana", "beto"] 0).2 = none) :=
  ⟨⟨by decide, (rotateAssignments_precondition [] ["solo"] 0).1 (by decide)⟩,
   ⟨by decide, ((rotateAssignments_precondition [] ["ana", "beto"] 0).2 (by decide)).1⟩⟩

/-! ## Claim C7: swap request ceiling -/

/-- C7 amended: a requester whose pending swap requests are embedded in 3
or more distinct task documents is refused a further request with the
ceiling error, and the refusal returns no updated state, so no request is
added. The ceiling counts task documents holding at least one pending
request by the requester, not individual requests. -/
theorem createSwapRequest_ceiling (tasks : List CleaningTask)
    (requestedTaskId offeredTaskId : Nat) (userId : String)
    (freshId : Nat) (now : Int) (rt ot : CleaningTask)
    (hreq : tasks.find? (fun t => t.id = requestedTaskId) = some rt)
    (hoff : tasks.find? (fun t => t.id = offeredTaskId) = some ot)
    (hresp : isResponsibleFor ot userId = true)
    (hdup : rt.swapRequests.any (fun r =>
        r.status = SwapStatus.pending && r.targetTask = offeredTaskId
          && r.requestedBy = userId) = false)
    (hceil : 3 ≤ countTasksWithPendingBy tasks userId) :
    createSwapRequest tasks requestedTaskId offeredTaskId userId freshId now =
      .error (.badRequest "Ya tienes demasiadas solicitudes de intercambio pendientes") := by
  simp only [createSwapRequest, hreq, hoff]
  rw [if_neg (by simp [hresp])]
  rw [if_neg (by simp [hdup])]
  rw [if_pos hceil]

/-- Task document embedding three pending requests by the same requester:
the ceiling query counts it as a single document. -/
def c7Hub : CleaningTask :=
  { id := 10, area := "Basura", frequency := "weekly", responsibles := ["pia"],
    temporaryResponsible := none, startDate := 0, endDate := 7,
    verifiers := [], completed := false, completedAt := none,
    verificationStatus := .pending, verifications := [],
    swapRequests :=
      [ { id := 101, requestedBy := "uri", targetTask := 91,
          status := .pending, createdAt := 0 }
      , { id := 102, requestedBy := "uri", targetTask := 92,
          status := .pending, createdAt := 0 }
      , { id := 103, requestedBy := "uri", targetTask := 93,
          status := .pending, createdAt := 0 } ] }

/-- The task the requester asks for in the fourth attempt. -/
def c7Requested : CleaningTask :=
  { id := 5, area := "Baño 1", frequency := "weekly", responsibles := ["pia"],
    temporaryResponsible := none, startDate := 0, endDate := 7,
    verifiers := [], completed := false, completedAt := none,
    verificationStatus := .pending, verifications := [], swapRequests := [] }

/-- The task the requester offers in the fourth attempt. -/
def c7Offered : CleaningTask :=
  { id := 6, area := "Baño 2", frequency := "weekly", responsibles := ["uri"],
    temporaryResponsible := none, startDate := 0, endDate := 7,
    verifiers := [], completed := false, completedAt := none,
    verificationStatus := .pending, verifications := [], swapRequests := [] }

/-- C7 counterexample: a requester with 3 pending swap requests
outstanding system-wide, all embedded in one task document, is not
refused: the fourth request succeeds and is appended. -/
theorem swap_ceiling_counts_documents :
    totalPendingRequestsBy [c7Hub, c7Requested, c7Offered] "uri" = 3 ∧
    (createSwapRequest [c7Hub, c7Requested, c7Offered] 5 6 "uri" 200 0).map
        (fun ts => ts.map (fun t => (t.id, t.swapRequests.length)))
      = .ok [(10, 3), (5, 1), (6, 0)] := by
  exact ⟨by decide, rfl⟩

/-- Three distinct task documents each holding one pending request by the
requester, used to trip the ceiling. -/
def c7Spread (n : Nat) : CleaningTask :=
  { id := 20 + n, area := "Baño 3", frequency := "weekly",
    responsibles := ["pia"], temporaryResponsible := none, startDate := 0,
    endDate := 7, verifiers := [], completed := false, completedAt := none,
    verificationStatus := .pending, verifications := [],
    swapRequests :=
      [ { id := 300 + n, requestedBy := "uri", targetTask := 90 + n,
          status := .pending, createdAt := 0 } ] }

/-- Witness for the amended C7: pending requests on 3 distinct tasks make
the fourth attempt fail with the ceiling error. -/
theorem createSwapRequest_ceiling_witness :
    ([c7Spread 1, c7Spread 2, c7Spread 3, c7Requested, c7Offered].find?
        (fun t => t.id = 5) = some c7Requested ∧
     [c7Spread 1, c7Spread 2, c7Spread 3, c7Requested, c7Offered].find?
        (fun t => t.id = 6) = some c7Offered ∧
     isResponsibleFor c7Offered "uri" = true ∧
     c7Requested.swapRequests.any (fun r =>
        r.status = SwapStatus.pending && r.targetTask = 6
          && r.requestedBy = "uri") = false ∧
     3 ≤ countTasksWithPendingBy
        [c7Spread 1, c7Spread 2, c7Spread 3, c7Requested, c7Offered] "uri") ∧
    createSwapRequest [c7Spread 1, c7Spread 2, c7Spread 3, c7Requested, c7Offered]
        5 6 "uri" 400 0 =
      .error (.badRequest "Ya tienes demasiadas solicitudes de intercambio pendientes") :=
  ⟨⟨by decide, by decide, by decide, by decide, by decide⟩,
   createSwapRequest_ceiling _ 5 6 "uri" 400 0 c7Requested c7Offered
     (by decide) (by decide) (by decide) (by decide) (by decide)⟩

/-! ## Claim C3: the two acceptance paths -/

/-- Requested task holding a pending swap request from beto. -/
def c3Task1 : CleaningTask :=
  { id := 1, area := "Cocina y Living", frequency := "weekly",
    responsibles := ["ana"], temporaryResponsible := some "tmp1",
    startDate := 0, endDate := 7, verifiers := [], completed := false,
    completedAt := none, verificationStatus := .pending, verifications := [],
    swapRequests :=
      [ { id := 9, requestedBy := "beto", targetTask := 2,
          status := .pending, createdAt := 0 } ] }

/-- Offered task held by beto. -/
def c3Task2 : CleaningTask :=
  { id := 2, area := "Basura", frequency := "weekly",
    responsibles := ["beto"], temporaryResponsible := some "tmp2",
    startDate := 0, endDate := 7, verifiers := [], completed := false,
    completedAt := none, verificationStatus := .pending, verifications := [],
    swapRequests := [] }

/-- C3: on the dedicated accept endpoint the exchange happens as the
claim describes, but the respondToSwapRequest accept path, on the very
same state, throws inside its call of the swapTasks route handler and
answers a 500 error without exchanging responsibles or marking the
request accepted. -/
theorem respondToSwapRequest_accept_throws :
    (acceptSwapRequest [c3Task1, c3Task2] 9 "ana").map
        (fun ts => ts.map (fun t =>
          (t.responsibles, t.temporaryResponsible,
            t.swapRequests.map (fun r => r.status))))
      = .ok [(["beto"], none, [SwapStatus.accepted]), (["ana"], none, [])] ∧
    respondToSwapRequest [c3Task1, c3Task2] 1 9 true "ana" =
      .error (.serverError "res.status is not a function") := by
  exact ⟨rfl, rfl⟩

end Cleaning

namespace Cleaning

/-! ## Claim C9: acceptance path has no completed-task guard -/

/-- C9: accepting a pending swap request performs the responsible-set
exchange, clears both temporary responsibles and marks the request
accepted even when a task of the pair is already completed; the direct
two-task swap endpoint rejects the very same pair because of its
completed-task guard. -/
theorem acceptSwapRequest_ignores_completed (t1 t2 : CleaningTask)
    (r : SwapRequest) (rid : Nat) (uid : String)
    (hne : t1.id ≠ t2.id)
    (hreq : t1.swapRequests = [r]) (hrid : r.id = rid)
    (hstat : r.status = .pending) (htarget : r.targetTask = t2.id)
    (hresp : isResponsibleFor t1 uid = true)
    (hcompleted : t1.completed = true ∨ t2.completed = true) :
    acceptSwapRequest [t1, t2] rid uid =
      .ok [ ({ t1 with
                responsibles := t2.responsibles
                temporaryResponsible := none
                swapRequests := [{ r with status := .accepted }] }),
            ({ t2 with
                responsibles := t1.responsibles
                temporaryResponsible := none }) ] ∧
    swapTasks [t1, t2] t1.id t2.id uid =
      .error (.badRequest "No se pueden intercambiar tareas que ya están completadas") := by
  constructor
  · have hany : (t1.swapRequests.any fun q => q.id = rid) = true := by
      simp [hreq, hrid]
    have hfind1 : ([t1, t2].find?
        (fun t => t.swapRequests.any fun q => q.id = rid)) = some t1 := by
      simp [List.find?, hany]
    have hfindr : t1.swapRequests.find? (fun q => q.id = rid) = some r := by
      simp [hreq, List.find?, hrid]
    have hfind2 : ([t1, t2].find? (fun t => t.id = r.targetTask)) = some t2 := by
      have h1 : (decide (t1.id = t2.id)) = false := by simpa using hne
      simp [List.find?, htarget, h1]
    simp only [acceptSwapRequest, hfind1, hfindr, hfind2]
    rw [if_neg (by simp [hstat])]
    rw [if_neg (by simp [hresp])]
    simp [hne, Ne.symm hne, hreq, hrid]
  · have hfind1 : ([t1, t2].find? (fun t => t.id = t1.id)) = some t1 := by
      simp [List.find?]
    have hfind2 : ([t1, t2].find? (fun t => t.id = t2.id)) = some t2 := by
      have h1 : (decide (t1.id = t2.id)) = false := by
        simp
        exact hne
      simp [List.find?, h1]
    simp only [swapTasks, hfind1, hfind2]
    rw [if_neg (by simp [hresp])]
    rw [if_pos (by rcases hcompleted with h | h <;> simp [h])]

end Cleaning

namespace Cleaning

/-- Completed requested task holding a pending swap request, for the C9
witness. -/
def c9Task1 : CleaningTask :=
  { id := 1, area := "Cocina y Living", frequency := "weekly",
    responsibles := ["ana"], temporaryResponsible := some "tmp1",
    startDate := 0, endDate := 7, verifiers := [], completed := true,
    completedAt := some 3, verificationStatus := .approved,
    verifications := [],
    swapRequests :=
      [ { id := 9, requestedBy := "beto", targetTask := 2,
          status := .pending, createdAt := 0 } ] }

/-- Offered task for the C9 witness. -/
def c9Task2 : CleaningTask :=
  { id := 2, area := "Basura", frequency := "weekly",
    responsibles := ["beto"], temporaryResponsible := some "tmp2",
    startDate := 0, endDate := 7, verifiers := [], completed := false,
    completedAt := none, verificationStatus := .pending,
    verifications := [], swapRequests := [] }

/-- The pending request embedded in the C9 witness task. -/
def c9Req : SwapRequest :=
  { id := 9, requestedBy := "beto", targetTask := 2,
    status := .pending, createdAt := 0 }

/-- Witness for C9: a completed requested task still swaps on acceptance
while the direct endpoint refuses the pair. -/
theorem acceptSwapRequest_ignores_completed_witness :
    (c9Task1.id ≠ c9Task2.id ∧ c9Task1.swapRequests = [c9Req] ∧
     c9Req.id = 9 ∧ c9Req.status = SwapStatus.pending ∧
     c9Req.targetTask = c9Task2.id ∧ isResponsibleFor c9Task1 "ana" = true ∧
     (c9Task1.completed = true ∨ c9Task2.completed = true)) ∧
    (acceptSwapRequest [c9Task1, c9Task2] 9 "ana" =
      .ok [ ({ c9Task1 with
                responsibles := c9Task2.responsibles
                temporaryResponsible := none
                swapRequests := [{ c9Req with status := .accepted }] }),
            ({ c9Task2 with
                responsibles := c9Task1.responsibles
                temporaryResponsible := none }) ] ∧
     swapTasks [c9Task1, c9Task2] c9Task1.id c9Task2.id "ana" =
      .error (.badRequest "No se pueden intercambiar tareas que ya están completadas")) :=
  ⟨⟨by decide, rfl, rfl, rfl, rfl, by decide, Or.inl rfl⟩,
   acceptSwapRequest_ignores_completed c9Task1 c9Task2 c9Req 9 "ana"
     (by decide) rfl rfl rfl rfl (by decide) (Or.inl rfl)⟩

/-- Task already completed and approved with one recorded vote, for the
C10 witness. -/
def c10Task : CleaningTask :=
  { id := 1, area := "Baño 1", frequency := "weekly",
    responsibles := ["ana"], temporaryResponsible := none,
    startDate := 0, endDate := 7, verifiers := ["v1"], completed := true,
    completedAt := some 3, verificationStatus := .approved,
    verifications :=
      [ { verifier := "v1", approved := true, comment := "ok", verifiedAt := 4 } ],
    swapRequests := [] }

/-- Collection after re-marking the C10 witness task completed. -/
def c10ResTrue : List CleaningTask :=
  (markAsCompleted [c10Task] 1 true "ana" false 99).toOption.getD []

/-- Collection after un-marking the C10 witness task. -/
def c10ResFalse : List CleaningTask :=
  (markAsCompleted [c10Task] 1 false "ana" false 99).toOption.getD []

/-- Witness for C10 on a task that was already completed, approved and
carrying a vote. -/
theorem markAsCompleted_frame_witness :
    (markAsCompleted [c10Task] 1 true "ana" false 99 = .ok c10ResTrue ∧
     markAsCompleted [c10Task] 1 false "ana" false 99 = .ok c10ResFalse) ∧
    ((∀ x2 ∈ c10ResTrue, ∃ x ∈ [c10Task],
      (x.id = 1 →
        x2.completed = true ∧ x2.completedAt = some 99 ∧
        x2.verificationStatus = .pending ∧
        x2.verifications = x.verifications) ∧
      (x.id ≠ 1 → x2 = x)) ∧
    (∀ x3 ∈ c10ResFalse, ∃ x ∈ [c10Task],
      (x.id = 1 →
        x3.completed = false ∧ x3.completedAt = none ∧
        x3.verificationStatus = .pending ∧ x3.verifications = []) ∧
      (x.id ≠ 1 → x3 = x))) :=
  ⟨⟨rfl, rfl⟩,
   markAsCompleted_frame [c10Task] 1 "ana" false 99 c10ResTrue c10ResFalse rfl rfl⟩

end Cleaning

namespace Cleaning

/-! ## Claim C8: metrics crediting -/

/-- C8: over one historical task, a responsible occurring once in the
roster is credited as completed exactly when the task is completed with
approved verification, and as incomplete-or-rejected exactly when the
verification is rejected or the task is explicitly not completed (all
other states credit neither); a temporary responsible who is not among
the responsibles accrues the same completion credits but no area recency
and no area count statistics. -/
theorem calculateUserMetrics_credit (t : CleaningTask) (users : List String)
    (uid : String) (hmem : uid ∈ users) :
    (t.responsibles.count uid = 1 → t.temporaryResponsible ≠ some uid →
      ∃ m, lookupA uid (calculateUserMetrics [t] users) = some m ∧
        m.totalHistoricalTasks = 1 ∧
        m.completedTasks =
          (if t.completed = true ∧ t.verificationStatus = .approved
            then 1 else 0) ∧
        m.incompleteOrRejectedTasks =
          (if t.verificationStatus = .rejected ∨ t.completed = false
            then 1 else 0)) ∧
    (t.temporaryResponsible = some uid → uid ∉ t.responsibles →
      ∃ m, lookupA uid (calculateUserMetrics [t] users) = some m ∧
        m.totalHistoricalTasks = 1 ∧
        m.completedTasks =
          (if t.completed = true ∧ t.verificationStatus = .approved
            then 1 else 0) ∧
        m.incompleteOrRejectedTasks =
          (if t.verificationStatus = .rejected ∨ t.completed = false
            then 1 else 0) ∧
        m.lastAssignedAreas = [] ∧ m.areaAssignmentCounts = []) := by
  have hinit : lookupA uid (users.map fun u => (u, initUserMetrics))
      = some initUserMetrics := by
    rw [lookupA_init]
    simp [hmem]
  constructor
  · intro hcount htemp
    have hlook : lookupA uid (calculateUserMetrics [t] users) =
        some (applyCompletionRate (creditResponsible t
          (t.completed && decide (t.verificationStatus = .approved))
          (t.completed && decide (t.verificationStatus = .rejected))
          initUserMetrics)) := by
      unfold calculateUserMetrics
      rw [lookupA_finishRates]
      simp only [List.foldl_cons, List.foldl_nil, applyHistoryTask]
      rcases htmp : t.temporaryResponsible with _ | v
      · rw [lookupA_foldl_updateEntry, hinit, hcount]
        simp
      · have hvne : v ≠ uid := by
          intro h
          subst h
          exact htemp htmp
        rw [lookupA_updateEntry, if_neg hvne,
          lookupA_foldl_updateEntry, hinit, hcount]
        simp
    refine ⟨_, hlook, ?_⟩
    cases hcpl : t.completed <;> cases hvs : t.verificationStatus <;>
      simp [creditResponsible, applyCompletionRate, initUserMetrics, lookupA, setAssoc, hcpl, hvs]
  · intro htmp hnotresp
    have hcount : t.responsibles.count uid = 0 :=
      List.count_eq_zero.mpr hnotresp
    have hlook : lookupA uid (calculateUserMetrics [t] users) =
        some (applyCompletionRate (creditTemporary t
          (t.completed && decide (t.verificationStatus = .approved))
          (t.completed && decide (t.verificationStatus = .rejected))
          initUserMetrics)) := by
      unfold calculateUserMetrics
      rw [lookupA_finishRates]
      simp only [List.foldl_cons, List.foldl_nil, applyHistoryTask]
      rw [htmp]
      rw [lookupA_updateEntry, if_pos rfl,
        lookupA_foldl_updateEntry, hinit, hcount]
      simp
    refine ⟨_, hlook, ?_⟩
    cases hcpl : t.completed <;> cases hvs : t.verificationStatus <;>
      simp [creditTemporary, applyCompletionRate, initUserMetrics, lookupA, setAssoc, hcpl, hvs]

end Cleaning

namespace Cleaning

/-- Historical task for the C8 witness: completed and approved, with a
responsible and a distinct temporary responsible. -/
def c8Task : CleaningTask :=
  { id := 3, area := "Baño 1", frequency := "weekly",
    responsibles := ["rita"], temporaryResponsible := some "toto",
    startDate := 0, endDate := 7, verifiers := [], completed := true,
    completedAt := some 5, verificationStatus := .approved,
    verifications := [], swapRequests := [] }

/-- Witness for C8 on the concrete historical task, for the responsible
and for the temporary responsible. -/
theorem calculateUserMetrics_credit_witness :
    (("rita" : String) ∈ (["rita", "toto"] : List String) ∧
     c8Task.responsibles.count "rita" = 1 ∧
     c8Task.temporaryResponsible ≠ some "rita" ∧
     (∃ m, lookupA "rita" (calculateUserMetrics [c8Task] ["rita", "toto"])
          = some m ∧
        m.totalHistoricalTasks = 1 ∧
        m.completedTasks =
          (if c8Task.completed = true ∧ c8Task.verificationStatus = .approved
            then 1 else 0) ∧
        m.incompleteOrRejectedTasks =
          (if c8Task.verificationStatus = .rejected ∨ c8Task.completed = false
            then 1 else 0))) ∧
    (("toto" : String) ∈ (["rita", "toto"] : List String) ∧
     c8Task.temporaryResponsible = some "toto" ∧
     ("toto" : String) ∉ c8Task.responsibles ∧
     (∃ m, lookupA "toto" (calculateUserMetrics [c8Task] ["rita", "toto"])
          = some m ∧
        m.totalHistoricalTasks = 1 ∧
        m.completedTasks =
          (if c8Task.completed = true ∧ c8Task.verificationStatus = .approved
            then 1 else 0) ∧
        m.incompleteOrRejectedTasks =
          (if c8Task.verificationStatus = .rejected ∨ c8Task.completed = false
            then 1 else 0) ∧
        m.lastAssignedAreas = [] ∧ m.areaAssignmentCounts = [])) :=
  ⟨⟨by decide, by decide, by decide,
    (calculateUserMetrics_credit c8Task ["rita", "toto"] "rita"
      (by decide)).1 (by decide) (by decide)⟩,
   ⟨by decide, rfl, by decide,
    (calculateUserMetrics_credit c8Task ["rita", "toto"] "toto"
      (by decide)).2 rfl (by decide)⟩⟩

/-! ## Claim C1: the suitability score and the top-k selection -/

/-- The score computed by the source equals the score the specification
states, for any user present in the metrics map. The source divides the
historical total by the maximum with a fallback of 1 when the maximum is
0; in that case the total itself is 0, so both ratios vanish. -/
theorem computeScore_eq_specScore (area : String) (target : ℚ) (now : Int)
    (mm : MetricsMap) (uid : String) (m : UserMetrics)
    (h : lookupA uid mm = some m) :
    computeScore area target now
      (if maxHistoricalTasks mm = 0 then 1 else (maxHistoricalTasks mm : ℚ)) m
      = specScore area target now mm m := by
  have hle : m.totalHistoricalTasks ≤ maxHistoricalTasks mm :=
    totalHistoricalTasks_le_max mm (uid, m) (mem_of_lookupA_eq_some h)
  unfold computeScore specScore
  by_cases hmx : maxHistoricalTasks mm = 0
  · have hz : m.totalHistoricalTasks = 0 := by omega
    rw [if_pos hmx]
    simp only [hmx, hz, Nat.cast_zero, zero_div]
    ring
  · rw [if_neg hmx]
    ring

/-- C1: in selectResponsiblesForArea, every computed score is exactly the
specified weighted sum of the five factors; the responsibles are the ids
of the first peopleNeeded entries of the stable score-descending ordering
of the scored users; that ordering is descending, so every selected
candidate scores at least as high as every candidate left out; and the
planner step then adds the area difficulty to each selected user live
workload accumulator, seen by the next area. -/
theorem selectResponsiblesForArea_spec (areaInfo : AreaConfig)
    (users : List String) (mm : MetricsMap) (target : ℚ) (now : Int) :
    (∀ su ∈ scoreUsers areaInfo users mm target now, ∀ m,
      lookupA su.userId mm = some m →
        su.score = specScore areaInfo.area target now mm m) ∧
    selectResponsiblesForArea areaInfo users mm target now =
      (((scoreUsers areaInfo users mm target now).mergeSort scoreGe).take
        areaInfo.peopleNeeded).map (fun su => su.userId) ∧
    ((scoreUsers areaInfo users mm target now).mergeSort scoreGe).Pairwise
      (fun a b => b.score ≤ a.score) ∧
    (∀ x ∈ ((scoreUsers areaInfo users mm target now).mergeSort scoreGe).take
        areaInfo.peopleNeeded,
     ∀ y ∈ ((scoreUsers areaInfo users mm target now).mergeSort scoreGe).drop
        areaInfo.peopleNeeded, y.score ≤ x.score) ∧
    (∀ (ts : List CleaningTask) (uid : String) (m : UserMetrics),
      (selectResponsiblesForArea areaInfo users mm target now).count uid = 1 →
      lookupA uid mm = some m →
      ∃ m2, lookupA uid (assignAreaStep users target now (ts, mm) areaInfo).2
          = some m2 ∧
        m2.currentWorkload = m.currentWorkload + (areaInfo.difficulty : ℚ)) := by
  have hsorted : ((scoreUsers areaInfo users mm target now).mergeSort
      scoreGe).Pairwise (fun a b => b.score ≤ a.score) := by
    have htrans : ∀ (a b c : ScoredUser), scoreGe a b = true →
        scoreGe b c = true → scoreGe a c = true := by
      intro a b c hab hbc
      simp only [scoreGe, decide_eq_true_eq] at hab hbc ⊢
      exact le_trans hbc hab
    have htotal : ∀ (a b : ScoredUser), (scoreGe a b || scoreGe b a) = true := by
      intro a b
      simp only [scoreGe, Bool.or_eq_true, decide_eq_true_eq]
      exact le_total b.score a.score
    exact (List.sorted_mergeSort htrans htotal _).imp
      (fun h => by simpa [scoreGe] using h)
  refine ⟨?_, ?_, hsorted, ?_, ?_⟩
  · intro su hsu m hm
    simp only [scoreUsers, List.mem_map] at hsu
    obtain ⟨uid, huid, rfl⟩ := hsu
    simp only at hm ⊢
    rw [hm, Option.getD_some]
    exact computeScore_eq_specScore areaInfo.area target now mm uid m hm
  · simp only [selectResponsiblesForArea]
    exact pickTop_eq_take_map _ _
  · intro x hx y hy
    have hsplit := hsorted
    rw [← List.take_append_drop areaInfo.peopleNeeded
      ((scoreUsers areaInfo users mm target now).mergeSort scoreGe)] at hsplit
    exact (List.pairwise_append.mp hsplit).2.2 x hx y hy
  · intro ts uid m hcount hm
    refine ⟨recordAssignment areaInfo now m, ?_, by simp [recordAssignment]⟩
    simp only [assignAreaStep]
    rw [lookupA_foldl_updateEntry]
    rw [hcount, hm]
    simp

end Cleaning

namespace Cleaning

/-- Area used by the C1 witness. -/
def wArea : AreaConfig := { area := "Baño 1", peopleNeeded := 1, difficulty := 2 }

/-- Metrics entry with history for the C1 witness. -/
def wMa : UserMetrics :=
  { totalHistoricalTasks := 2, completedTasks := 1,
    incompleteOrRejectedTasks := 1, completionRate := 1 / 2,
    lastAssignedAreas := [("Baño 1", 3)],
    areaAssignmentCounts := [("Baño 1", 2)],
    currentWorkload := 0, tasksAssigned := 0 }

/-- Metrics map for the C1 witness. -/
def wMM : MetricsMap := [("ana", wMa)]

/-- The scored candidate of the C1 witness run. -/
def wSu : ScoredUser :=
  (scoreUsers wArea ["ana"] wMM 7 10).getD 0 ⟨"", 0⟩

/-- Witness for C1 on a concrete metrics map: the scored entry matches
the specified formula, and the planner step raises the selected user
accumulator by the area difficulty. -/
theorem selectResponsiblesForArea_spec_witness :
    (wSu ∈ scoreUsers wArea ["ana"] wMM 7 10 ∧
     lookupA wSu.userId wMM = some wMa ∧
     wSu.score = specScore "Baño 1" 7 10 wMM wMa) ∧
    ((selectResponsiblesForArea wArea ["ana"] wMM 7 10).count "ana" = 1 ∧
     lookupA "ana" wMM = some wMa ∧
     ∃ m2, lookupA "ana" (assignAreaStep ["ana"] 7 10 ([], wMM) wArea).2
        = some m2 ∧
       m2.currentWorkload = wMa.currentWorkload + (wArea.difficulty : ℚ)) :=
  ⟨⟨List.mem_cons_self _ _, rfl,
    (selectResponsiblesForArea_spec wArea ["ana"] wMM 7 10).1 wSu
      (List.mem_cons_self _ _) wMa rfl⟩,
   ⟨by simp [selectResponsiblesForArea, scoreUsers, List.mergeSort_singleton,
      pickTop],
    rfl,
    (selectResponsiblesForArea_spec wArea ["ana"] wMM 7 10).2.2.2.2
      [] "ana" wMa
      (by simp [selectResponsiblesForArea, scoreUsers,
        List.mergeSort_singleton, pickTop])
      rfl⟩⟩

end Cleaning
